import Mathlib

/-!
Verification of the OASIS A2A protocol demo clients.

The Python demo scripts are shallowly embedded: JSON values become the
inductive `Json`, Python dict/`or`/truthiness idioms become explicit
functions, HTTP responses become `HttpResp` records, and each client
operation becomes a pure Lean function from the session state and the
remote response to the new state and the returned value.  Python
exceptions are modelled with `Except PyExc`; a raising path returns the
state as it was at the raise point (in these scripts no field mutation
ever precedes a possible raise inside one operation).
-/

/-- A JSON value as decoded by Python's `json` module.  Numbers are kept
as exact rationals. -/
inductive Json where
  | null : Json
  | bool : Bool → Json
  | num : ℚ → Json
  | str : String → Json
  | arr : List Json → Json
  | obj : List (String × Json) → Json

/-- Python truthiness (`bool(x)`) for the values a decoded JSON body can
take: `None`, `False`, `0`, `""`, `[]` and `{}` are falsy. -/
def Json.truthy : Json → Bool
  | .null => false
  | .bool b => b
  | .num q => decide (q.num ≠ 0)
  | .str s => decide (s ≠ "")
  | .arr xs => !xs.isEmpty
  | .obj fs => !fs.isEmpty

/-- First binding of a key in a decoded JSON object (Python dicts hold
each key once, so the first match is the only one). -/
def lookupField : List (String × Json) → String → Option Json
  | [], _ => none
  | (k, v) :: rest, key => if k = key then some v else lookupField rest key

/-- The Python exceptions these scripts can hit while handling a
response: `json` decode errors, `.get` on a non-dict, slicing a
non-string. -/
inductive PyExc where
  | valueError : PyExc
  | attributeError : PyExc
  | typeError : PyExc
deriving DecidableEq

/-- Python `x.get(key, default)`: raises `AttributeError` when `x` is
not a dict. -/
def pyGetD : Json → String → Json → Except PyExc Json
  | .obj fs, k, d => .ok ((lookupField fs k).getD d)
  | _, _, _ => .error .attributeError

/-- Python `x.get(key)` (default `None`). -/
def pyGet (j : Json) (k : String) : Except PyExc Json := pyGetD j k .null

/-- Total variant of `.get(key, default)`, used only at points where the
receiver has already been established to be a dict on the same path. -/
def objGetD : Json → String → Json → Json
  | .obj fs, k, d => (lookupField fs k).getD d
  | _, _, d => d

/-- Python `a or b`: the left operand when truthy, otherwise the right. -/
def pyOr (a b : Json) : Json := if a.truthy then a else b

/-- Python `x == n` against an integer literal, as used on the
`statusCode` field: only a numeric JSON value can compare equal, and a
rational equals the integer `n` exactly when its numerator is `n` and
its denominator is 1. -/
def jsonEqNat (j : Json) (n : ℕ) : Bool :=
  match j with
  | .num q => decide (q.num = (n : ℤ) ∧ q.den = 1)
  | _ => false

/-- Python `str(x)` as it appears inside the memo f-string; the session
username in these scripts is only ever `None` or a string. -/
def pyStr : Json → String
  | .str s => s
  | .null => "None"
  | .bool true => "True"
  | .bool false => "False"
  | _ => ""

/-- The code point of `c` after Python's `.lower()` (ASCII range; the
messages matched here are ASCII). -/
def charLowerCode (c : Char) : ℕ :=
  if 65 ≤ c.toNat ∧ c.toNat ≤ 90 then c.toNat + 32 else c.toNat

/-- A string as its list of lowered code points. -/
def lowerCodes (s : String) : List ℕ := s.toList.map charLowerCode

/-- Does `hay` start with `needle`? (code-point-wise). -/
def codesStartWith : List ℕ → List ℕ → Bool
  | _, [] => true
  | [], _ :: _ => false
  | c :: cs, d :: ds => (c = d) && codesStartWith cs ds

/-- Does `hay` contain `needle` as a contiguous run? -/
def codesContain : List ℕ → List ℕ → Bool
  | [], needle => needle.isEmpty
  | c :: cs, needle => codesStartWith (c :: cs) needle || codesContain cs needle

/-- Python's `needle in hay.lower()` (the needles used by the scripts
are already lowercase, so both sides are lowered). -/
def strContainsLower (hay needle : String) : Bool :=
  codesContain (lowerCodes hay) (lowerCodes needle)

/-- An HTTP response as the scripts see it: status code, the JSON body
when it decodes (`none` models a body on which `response.json()` raises),
and the raw text. -/
structure HttpResp where
  status : ℕ
  body : Option Json
  text : String

/-- `response.json()`: raises a decode error when the body is not valid
JSON. -/
def respJson (r : HttpResp) : Except PyExc Json :=
  match r.body with
  | some j => .ok j
  | none => .error .valueError

/-- The mutable identity fields of a demo client object
(`self.token`, `self.avatar_id`, `self.username`,
`self.wallet_address`), each initialised to `None`. -/
structure Session where
  token : Json
  avatar_id : Json
  username : Json
  wallet_address : Json

/-- A freshly constructed client. -/
def Session.init : Session := ⟨.null, .null, .null, .null⟩

/-! ### IEEE-754 double model for the lamports conversion

`int(amount_sol * LAMPORTS_PER_SOL)` multiplies a Python float by an
exact integer and truncates.  Doubles are modelled as the rationals they
denote; the product is rounded to the nearest representable double
(round half to even, 53-bit significand) before truncation. -/

/-- Fuel-driven binade search on an exact positive fraction `n / d`:
returns `e` with `2^e ≤ n/d < 2^(e+1)` (the fuel far exceeds the
IEEE-754 double exponent span). -/
def log2floorAux : ℕ → ℕ → ℕ → ℤ → ℤ
  | 0, _, _, e => e
  | fuel + 1, n, d, e =>
    if 2 * d ≤ n then log2floorAux fuel n (2 * d) (e + 1)
    else if n < d then log2floorAux fuel (2 * n) d (e - 1)
    else e

/-- Round the exact fraction `num / den` to the nearest natural number,
ties to even (the IEEE-754 default rounding). -/
def rneFrac (num den : ℕ) : ℕ :=
  let q := num / den
  let r := num % den
  if 2 * r < den then q
  else if den < 2 * r then q + 1
  else if q % 2 = 0 then q else q + 1

/-- Round a real (rational) value to the nearest IEEE-754 double,
returned as the exact rational that double denotes (normal range; the
amounts in these scripts are far from the subnormal and overflow
thresholds). -/
def flDouble (q : ℚ) : ℚ :=
  if q.num = 0 then 0
  else
    let n := q.num.natAbs
    let d := q.den
    let e := log2floorAux 1100 n d 0
    let m :=
      if 0 ≤ 52 - e then rneFrac (n * 2 ^ (52 - e).toNat) d
      else rneFrac n (d * 2 ^ (e - 52).toNat)
    let sign : ℤ := if q.num < 0 then -1 else 1
    if 0 ≤ e - 52 then mkRat (sign * (m * 2 ^ (e - 52).toNat : ℕ)) 1
    else mkRat (sign * m) (2 ^ (52 - e).toNat)

/-- Python `int(q)` on an exact rational: truncation toward zero. -/
def intTrunc (q : ℚ) : ℤ := Int.tdiv q.num q.den

/-- Source constant `LAMPORTS_PER_SOL = 1_000_000_000`. -/
def LAMPORTS_PER_SOL : ℤ := 1000000000

/-- The conversion performed before every payment submission:
`amount_lamports = int(amount_sol * LAMPORTS_PER_SOL)` where
`amount_sol` is a double, the product is rounded as a double and `int`
truncates.  `mkRat (a.num * LAMPORTS_PER_SOL) a.den` is the exact
rational value of `a * LAMPORTS_PER_SOL` (see `toMinorUnits_exact_mul`). -/
def toMinorUnits (a : ℚ) : ℤ :=
  intTrunc (flDouble (mkRat (a.num * LAMPORTS_PER_SOL) a.den))

/-- The argument fed to `flDouble` inside `toMinorUnits` is the exact
product `a * 1_000_000_000`. -/
theorem toMinorUnits_exact_mul (a : ℚ) :
    mkRat (a.num * LAMPORTS_PER_SOL) a.den = a * (LAMPORTS_PER_SOL : ℚ) := by
  rw [Rat.mkRat_eq_div]
  push_cast
  rw [div_eq_iff (by exact_mod_cast a.den_nz)]
  rw [mul_comm a _, mul_assoc]
  rw [Rat.mul_den_eq_num]
  ring

/-- Source constant `PAYMENT_AMOUNT_SOL = 0.01`, as the double the
literal parses to. -/
def PAYMENT_AMOUNT_SOL : ℚ := flDouble (mkRat 1 100)

/-- Source constant `FUNDING_AMOUNT_SOL = 0.05`, as the double the
literal parses to. -/
def FUNDING_AMOUNT_SOL : ℚ := flDouble (mkRat 5 100)

/-- The double closest to 0.01 is `5764607523034235 / 2^59`. -/
theorem payment_amount_double : PAYMENT_AMOUNT_SOL = mkRat 5764607523034235 (2 ^ 59) := by
  decide

/-- The double closest to 0.05 is `7205759403792794 / 2^57`. -/
theorem funding_amount_double : FUNDING_AMOUNT_SOL = mkRat 7205759403792794 (2 ^ 57) := by
  decide

/-! ### Client operations, embedded from `a2a_integrated_payment_demo.py`

Each operation takes the session fields and the remote response and
returns the new session fields together with the Python return value
(or the exception a path raises).  Short-circuit evaluation of `and`
and `or` is preserved. -/

/-- `A2AIntegratedClient.authenticate` (lines 93-110): POSTs the
credentials, then on `status == 200 and not data.get("isError")`
unwraps `data.get("result", {}).get("result", {}) or
data.get("result", {})`, stores the token (`jwtToken` or `token`),
avatar id (`id` or `avatarId`) and username, and returns `True`;
otherwise returns `False`. -/
def authenticate (st : Session) (username : String) (resp : HttpResp) :
    Session × Except PyExc Bool :=
  match respJson resp with
  | .error e => (st, .error e)
  | .ok data =>
    if resp.status = 200 then
      match pyGet data "isError" with
      | .error e => (st, .error e)
      | .ok isErr =>
        if isErr.truthy then (st, .ok false)
        else
          let r1 := objGetD data "result" (.obj [])
          match pyGetD r1 "result" (.obj []) with
          | .error e => (st, .error e)
          | .ok r2 =>
            let result := pyOr r2 (objGetD data "result" (.obj []))
            match pyGet result "jwtToken" with
            | .error e => (st, .error e)
            | .ok jt =>
              ({ st with
                  token := pyOr jt (objGetD result "token" .null),
                  avatar_id := pyOr (objGetD result "id" .null)
                    (objGetD result "avatarId" .null),
                  username := .str username }, .ok true)
    else (st, .ok false)

/-- `A2AIntegratedClient.register_avatar` (lines 54-91): runs `curl`,
and when it exits 0 with non-empty stdout, parses the body
(`json.loads`, which raises on malformed output — `parsed = none`);
on `statusCode == 200` with `result.isError` falsy it stores
`result["result"]["id"]` and the username and returns the whole body,
otherwise it returns the empty dict. -/
def register_avatar (st : Session) (username : String) (returncode : ℤ)
    (stdout : String) (parsed : Option Json) : Session × Except PyExc Json :=
  if returncode = 0 ∧ stdout ≠ "" then
    match parsed with
    | none => (st, .error .valueError)
    | some data =>
      match pyGetD data "result" (.obj []) with
      | .error e => (st, .error e)
      | .ok result =>
        if jsonEqNat (objGetD data "statusCode" .null) 200 then
          match pyGet result "isError" with
          | .error e => (st, .error e)
          | .ok isErr =>
            if isErr.truthy then (st, .ok (.obj []))
            else
              match pyGetD result "result" (.obj []) with
              | .error e => (st, .error e)
              | .ok rr =>
                match pyGet rr "id" with
                | .error e => (st, .error e)
                | .ok idv =>
                  ({ st with avatar_id := idv, username := .str username },
                    .ok data)
        else (st, .ok (.obj []))
  else (st, .ok (.obj []))

/-- The integrated demo's `main` registration guard
(`if not agent_a.register_avatar(...): sys.exit(1)`): the run aborts
exactly when the returned value is falsy. -/
def registration_aborts (regResult : Json) : Bool := !regResult.truthy

/-- The capability payload `register_capabilities` POSTs (status 0 is
`Available`, `max_concurrent_tasks` is the literal 3). -/
structure CapabilityPayload where
  services : List String
  pricing : List (String × ℚ)
  skills : List String
  status : ℤ
  max_concurrent_tasks : ℤ
  description : String

/-- `A2AIntegratedClient.register_capabilities` (lines 112-142): without
a token no request is issued (`none`); otherwise the payload is POSTed
as given and the call returns `data.get("success")` truthiness on a 200
response, `False` otherwise. -/
def register_capabilities (st : Session) (services skills : List String)
    (pricing : List (String × ℚ)) (description : String) (resp : HttpResp) :
    Option CapabilityPayload × Except PyExc Bool :=
  if st.token.truthy then
    let payload : CapabilityPayload :=
      ⟨services, pricing, skills, 0, 3, description⟩
    match respJson resp with
    | .error e => (some payload, .error e)
    | .ok data =>
      if resp.status = 200 then
        match pyGet data "success" with
        | .error e => (some payload, .error e)
        | .ok s => (some payload, .ok s.truthy)
      else
        match pyGetD data "error" (.str "Unknown error") with
        | .error e => (some payload, .error e)
        | .ok _ => (some payload, .ok false)
  else (none, .ok false)

/-- The pricing dict built by `SERVDiscoveryDemo.register_capabilities`
(`a2a_serv_discovery_demo.py` line 97):
`{service: 0.1 for service in services}`. -/
def servPricing (services : List String) : List (String × ℚ) :=
  services.map (fun s => (s, mkRat 1 10))

/-- The services Agent A declares in the integrated demo's `main`. -/
def integratedServices : List String := ["data-analysis", "ai-processing"]

/-- The pricing Agent A declares in the integrated demo's `main`
(the float literals 0.1 and 0.15; only the keys matter to the subset
invariant). -/
def integratedPricing : List (String × ℚ) :=
  [("data-analysis", mkRat 1 10), ("ai-processing", mkRat 3 20)]

/-- The `$values`-envelope unwrap both discovery readers perform:
`data.get("$values", []) if isinstance(data, dict) else data`. -/
def unwrapValues : Json → Json
  | .obj fs => (lookupField fs "$values").getD (.arr [])
  | data => data

/-- `A2AIntegratedClient.discover_agents_by_service` (lines 144-156):
on a 200 response the body is unwrapped; a list is returned as-is and
anything else collapses to `[]`; every non-200 status yields `[]`. -/
def discover_agents_by_service (resp : HttpResp) : Except PyExc (List Json) :=
  if resp.status = 200 then
    match respJson resp with
    | .error e => .error e
    | .ok data =>
      match unwrapValues data with
      | .arr xs => .ok xs
      | _ => .ok []
  else .ok []

/-- `A2AIntegratedClient.get_pending_messages` (lines 211-225): same
normalization as discovery, plus an initial token guard returning `[]`. -/
def get_pending_messages (st : Session) (resp : HttpResp) :
    Except PyExc (List Json) :=
  if st.token.truthy then
    if resp.status = 200 then
      match respJson resp with
      | .error e => .error e
      | .ok data =>
        match unwrapValues data with
        | .arr xs => .ok xs
        | _ => .ok []
    else .ok []
  else .ok []

/-- The discovery step of the integrated demo's `main` (lines 373-382):
one query, then on an empty result a single retry after a fixed sleep,
then abort (`none`) if still empty.  The first component counts the
discovery calls issued. -/
def discoveryPhase (r1 r2 : HttpResp) : Except PyExc (ℕ × Option (List Json)) :=
  match discover_agents_by_service r1 with
  | .error e => .error e
  | .ok [] =>
    match discover_agents_by_service r2 with
    | .error e => .error e
    | .ok [] => .ok (2, none)
    | .ok (a :: rest) => .ok (2, some (a :: rest))
  | .ok (a :: rest) => .ok (1, some (a :: rest))

/-- `A2AIntegratedClient.create_solana_wallet` (lines 227-256): guarded
on token and avatar id; on `status == 200 and not data.get("isError")`
stores `result.walletAddress or result.publicKey` and returns `True`,
otherwise returns `False`. -/
def create_solana_wallet (st : Session) (resp : HttpResp) :
    Session × Except PyExc Bool :=
  if st.token.truthy && st.avatar_id.truthy then
    match respJson resp with
    | .error e => (st, .error e)
    | .ok data =>
      if resp.status = 200 then
        match pyGet data "isError" with
        | .error e => (st, .error e)
        | .ok isErr =>
          if isErr.truthy then (st, .ok false)
          else
            let result := objGetD data "result" (.obj [])
            match pyGet result "walletAddress" with
            | .error e => (st, .error e)
            | .ok wa =>
              ({ st with
                  wallet_address := pyOr wa (objGetD result "publicKey" .null) },
                .ok true)
      else (st, .ok false)
  else (st, .ok false)

/-- The body of the one payment POST: destination, lamports amount and
memo (`lampposts` is the constant 5000 in both scripts). -/
structure PaymentPayload where
  fromKey : Json
  toKey : String
  amount : ℤ
  memoText : String

/-- `A2AIntegratedClient.send_solana_payment` (lines 258-290): guarded
on token and wallet address (no request at all when either is missing),
then exactly one POST whose amount is `int(amount_sol * LAMPORTS_PER_SOL)`;
on success returns the transaction hash, on failure prints
`data.get('message', ...)` and returns `None`.  The first component
lists the submissions issued. -/
def send_solana_payment (st : Session) (to_wallet : String) (amount_sol : ℚ)
    (memo : String) (resp : HttpResp) :
    List PaymentPayload × Session × Except PyExc Json :=
  if st.token.truthy && st.wallet_address.truthy then
    let payload : PaymentPayload :=
      ⟨st.wallet_address, to_wallet, toMinorUnits amount_sol, memo⟩
    match respJson resp with
    | .error e => ([payload], st, .error e)
    | .ok data =>
      if resp.status = 200 then
        match pyGet data "isError" with
        | .error e => ([payload], st, .error e)
        | .ok isErr =>
          if isErr.truthy then ([payload], st, .ok .null)
          else
            let result := objGetD data "result" (.obj [])
            match pyGet result "transactionHash" with
            | .error e => ([payload], st, .error e)
            | .ok tx => ([payload], st, .ok tx)
      else
        match pyGetD data "message" (.str "Unknown error") with
        | .error e => ([payload], st, .error e)
        | .ok _ => ([payload], st, .ok .null)
  else ([], st, .ok .null)

/-! ### Operations embedded from `a2a_solana_payment_demo.py` and
`test/test_agent_nft_minting.py` -/

/-- `OASISClient.create_solana_wallet` (lines 156-190): guarded on token
and avatar id (returns `{}`); on success stores the wallet address and
returns the whole body; the failure branch reads
`data.get("message", ...)` (which raises on a non-dict body) and also
returns the body. -/
def create_solana_wallet_sol (st : Session) (resp : HttpResp) :
    Session × Except PyExc Json :=
  if st.token.truthy && st.avatar_id.truthy then
    match respJson resp with
    | .error e => (st, .error e)
    | .ok data =>
      if resp.status = 200 then
        match pyGet data "isError" with
        | .error e => (st, .error e)
        | .ok isErr =>
          if isErr.truthy then (st, .ok data)
          else
            let result := objGetD data "result" (.obj [])
            match pyGet result "walletAddress" with
            | .error e => (st, .error e)
            | .ok wa =>
              ({ st with
                  wallet_address := pyOr wa (objGetD result "publicKey" .null) },
                .ok data)
      else
        match pyGetD data "message" (.str "Unknown error") with
        | .error e => (st, .error e)
        | .ok _ => (st, .ok data)
  else (st, .ok (.obj []))

/-- `OASISClient.send_solana_payment` (lines 222-280): token guard, then
`from_wallet = from_wallet_address or self.wallet_address` guard (both
return `{}` with no request); the log line slices `from_wallet[:8]`,
which raises on a non-string before any request; then exactly one POST;
a body that fails JSON decoding is caught and turned into
`{"isError": True, "message": "Invalid response: " + text[:200]}`;
otherwise the whole body is returned on success and failure alike. -/
def send_solana_payment_sol (st : Session) (to_wallet : String)
    (amount_sol : ℚ) (memo_text : String) (from_wallet_address : Json)
    (resp : HttpResp) : List PaymentPayload × Session × Except PyExc Json :=
  if st.token.truthy then
    let from_wallet := pyOr from_wallet_address st.wallet_address
    if from_wallet.truthy then
      match from_wallet with
      | .str fw =>
        let memo :=
          if memo_text ≠ "" then memo_text
          else "Payment from " ++ pyStr (pyOr st.username (.str "admin"))
        let payload : PaymentPayload :=
          ⟨.str fw, to_wallet, toMinorUnits amount_sol, memo⟩
        match resp.body with
        | none =>
          ([payload], st,
            .ok (.obj [("isError", .bool true),
              ("message", .str ("Invalid response: " ++ resp.text.take 200))]))
        | some data =>
          if resp.status = 200 then
            match pyGet data "isError" with
            | .error e => ([payload], st, .error e)
            | .ok isErr =>
              if isErr.truthy then ([payload], st, .ok data)
              else
                match pyGetD (objGetD data "result" (.obj []))
                    "transactionHash" (.str "N/A") with
                | .error e => ([payload], st, .error e)
                | .ok _ => ([payload], st, .ok data)
          else
            match pyGetD data "message" (.str "Unknown error") with
            | .error e => ([payload], st, .error e)
            | .ok _ => ([payload], st, .ok data)
      | _ => ([], st, .error .typeError)
    else ([], st, .ok (.obj []))
  else ([], st, .ok (.obj []))

/-- The `else` arm of `create_agent`'s 200 branch, shared by the two
falsy-result paths: builds `error_msg` (top-level `message`, else the
nested one when `result` is a dict) and tests it for the already-exists
substrings; `.lower()` on a non-string raises, which the outer handler
turns into `False`. -/
def createAgentElse (data : Json) : Bool :=
  let m1 := objGetD data "message" (.str "")
  let m2 :=
    match objGetD data "result" (.obj []) with
    | .obj fs => (lookupField fs "message").getD (.str "")
    | _ => .str ""
  match pyOr m1 m2 with
  | .str s =>
    strContainsLower s "already exists" || strContainsLower s "exist"
  | _ => false

/-- `create_agent` from `test_agent_nft_minting.py` (lines 55-116): the
whole body sits in a `try` whose handler returns `False`, so the
function is total.  On a 200 body with a doubly-nested result it
succeeds; otherwise (and on a 400) it extracts an error message and
treats it as non-fatal exactly when it contains `already exists` or
`exist` case-insensitively. -/
def create_agent (resp : HttpResp) : Bool :=
  if resp.status = 200 then
    match resp.body with
    | none => false
    | some data =>
      match pyGet data "result" with
      | .error _ => false
      | .ok r =>
        if r.truthy then
          match pyGet r "result" with
          | .error _ => false
          | .ok rr =>
            if rr.truthy then
              match pyGet rr "id" with
              | .error _ => false
              | .ok _ => true
            else
              createAgentElse data
        else
          createAgentElse data
  else if resp.status = 400 then
    strContainsLower resp.text "already exists" ||
      strContainsLower resp.text "exist"
  else false

/-! ### Claim theorems -/

/-- C1: for the SOL amounts the demos handle (the payment amount 0.01
and the funding amount 0.05, as the doubles those literals parse to),
the lamports conversion performed before a payment is submitted,
`int(amount_sol * LAMPORTS_PER_SOL)`, equals `round(a * 10^9)` — both
for `a` read as the decimal literal and for `a` read as the stored
double. -/
theorem c1_lamports_conversion_demo_amounts :
    toMinorUnits PAYMENT_AMOUNT_SOL = round ((1 : ℚ) / 100 * 1000000000) ∧
    toMinorUnits FUNDING_AMOUNT_SOL = round ((5 : ℚ) / 100 * 1000000000) ∧
    toMinorUnits PAYMENT_AMOUNT_SOL = round (PAYMENT_AMOUNT_SOL * 1000000000) ∧
    toMinorUnits FUNDING_AMOUNT_SOL = round (FUNDING_AMOUNT_SOL * 1000000000) := by
  have hp : toMinorUnits PAYMENT_AMOUNT_SOL = 10000000 := by decide
  have hf : toMinorUnits FUNDING_AMOUNT_SOL = 50000000 := by decide
  have hpv : PAYMENT_AMOUNT_SOL = mkRat 5764607523034235 (2 ^ 59) := by decide
  have hfv : FUNDING_AMOUNT_SOL = mkRat 7205759403792794 (2 ^ 57) := by decide
  refine ⟨?_, ?_, ?_, ?_⟩
  · rw [hp, round_eq]; norm_num
  · rw [hf, round_eq]; norm_num
  · rw [hp, hpv, Rat.mkRat_eq_div, round_eq]; norm_num
  · rw [hf, hfv, Rat.mkRat_eq_div, round_eq]; norm_num

/-- C2 is false as stated: on a body that fails JSON decoding,
`authenticate` does not return an error value — it propagates the decode
exception (`data = response.json()` is unguarded), so this Transport
Client call crashes on malformed remote output. -/
theorem c2_counterexample_authenticate_raises :
    (authenticate Session.init "user1" ⟨200, none, "<html>bad gateway</html>"⟩).2 =
      .error .valueError := rfl

/-- C2 amended: only the Solana demo's payment submission guards JSON
decoding.  Whenever its preconditions hold (token present, resolved
source wallet a non-empty string) and the body fails to decode, it
issues its single submission and returns the error object
`{"isError": True, "message": "Invalid response: " + text[:200]}` —
carrying the truncated body text (the status code is only printed, not
carried) — instead of raising, for every status code. -/
theorem c2_amended_solana_send_decode_guard (st : Session) (dst m txt : String)
    (a : ℚ) (fw : Json) (code : ℕ) (s : String)
    (htok : st.token.truthy = true)
    (hfw : pyOr fw st.wallet_address = .str s) (hs : s ≠ "") :
    (send_solana_payment_sol st dst a m fw ⟨code, none, txt⟩).2.2 =
      .ok (.obj [("isError", .bool true),
        ("message", .str ("Invalid response: " ++ txt.take 200))]) ∧
    (send_solana_payment_sol st dst a m fw ⟨code, none, txt⟩).1.length = 1 := by
  unfold send_solana_payment_sol
  rw [htok, hfw]
  simp [Json.truthy, hs]

/-- Witness for `c2_amended_solana_send_decode_guard` at a concrete
session and malformed 500 response. -/
theorem c2_amended_solana_send_decode_guard_witness :
    ((⟨.str "tok", .null, .null, .str "wallet1"⟩ : Session).token.truthy = true) ∧
    pyOr .null (Session.wallet_address ⟨.str "tok", .null, .null, .str "wallet1"⟩) =
      .str "wallet1" ∧
    "wallet1" ≠ "" ∧
    (send_solana_payment_sol ⟨.str "tok", .null, .null, .str "wallet1"⟩ "dest"
      (mkRat 1 100) "memo" .null ⟨500, none, "boom"⟩).2.2 =
      .ok (.obj [("isError", .bool true),
        ("message", .str ("Invalid response: " ++ String.take "boom" 200))]) :=
  ⟨rfl, rfl, by decide,
    (c2_amended_solana_send_decode_guard ⟨.str "tok", .null, .null, .str "wallet1"⟩
      "dest" "memo" "boom" (mkRat 1 100) .null 500 "wallet1" rfl rfl
      (by decide)).1⟩

/-- C3 is false as stated: the normalization does not report an error
when `isError` is set at a traversed level.  Here `isError` is true at
the middle level the unwrap walks through, yet `authenticate` succeeds
and stores the nested token. -/
theorem c3_counterexample_nested_isError_ignored :
    authenticate Session.init "user1"
      ⟨200, some (.obj [("result", .obj [("isError", .bool true),
        ("result", .obj [("jwtToken", .str "tok123")])])]), ""⟩ =
      (⟨.str "tok123", .null, .str "user1", .null⟩, .ok true) := rfl

/-- C3 amended: the client unwraps the `result` key at most twice —
taking `data["result"]["result"]` when truthy and `data["result"]`
otherwise — and consults `isError` only at the top level of the body:
(a) an `isError` flag at a nested level never causes an error report;
(b) the walk stops at the second level even when that node itself
contains a further `result` key (the payload is read there, not at the
innermost node); (c) a top-level `isError` makes the call fail. -/
theorem c3_amended_two_level_unwrap :
    (∀ st u (v : Json) (t : String),
      (authenticate st u ⟨200, some (.obj [("result", .obj [("isError", v),
        ("result", .obj [("jwtToken", .str t)])])]), ""⟩).2 = .ok true) ∧
    (∀ st u (deep : Json) (t : String),
      (authenticate st u ⟨200, some (.obj [("result", .obj [("result",
        .obj [("jwtToken", .str t), ("result", deep)])])]), ""⟩).1.token =
        pyOr (.str t) .null ∧
      (authenticate st u ⟨200, some (.obj [("result", .obj [("result",
        .obj [("jwtToken", .str t), ("result", deep)])])]), ""⟩).2 = .ok true) ∧
    (∀ st u (rest : List (String × Json)) (txt : String),
      authenticate st u ⟨200, some (.obj (("isError", .bool true) :: rest)), txt⟩ =
        (st, .ok false)) :=
  ⟨fun _ _ _ _ => rfl, fun _ _ _ _ => ⟨rfl, rfl⟩, fun _ _ _ _ => rfl⟩

/-- C4 is false as stated: in the integrated payment demo, a
registration that fails because the username already exists makes
`register_avatar` return the falsy `{}`, and `main`'s guard
(`if not ...: sys.exit(1)`) aborts the run instead of proceeding to
authenticate. -/
theorem c4_counterexample_integrated_demo_aborts :
    (register_avatar Session.init "provider_1" 0 "curlout"
      (some (.obj [("statusCode", .num 200),
        ("result", .obj [("isError", .bool true),
          ("message", .str "Username already exists")])]))).2 = .ok (.obj []) ∧
    registration_aborts (.obj []) = true := ⟨rfl, rfl⟩

/-- C4 amended: only the NFT-minting test treats "username already
exists" as non-fatal — `create_agent` returns `True` (the flow then
authenticates with the same credential) both on a 400 whose text
mentions the condition and on a 200 whose error message does; the
integrated payment demo instead returns `{}` for every remotely
reported registration error, already-exists included, and its `main`
guard aborts on that value. -/
theorem c4_amended_already_exists_paths :
    create_agent ⟨400, none, "Avatar with username already exists"⟩ = true ∧
    create_agent ⟨200, some (.obj [("message",
      .str "Username already exists, please pick another")]), ""⟩ = true ∧
    (∀ st u (msg : String),
      (register_avatar st u 0 "curlout"
        (some (.obj [("statusCode", .num 200),
          ("result", .obj [("isError", .bool true),
            ("message", .str msg)])]))).2 = .ok (.obj [])) ∧
    registration_aborts (.obj []) = true :=
  ⟨by decide, by decide, fun _ _ _ => rfl, rfl⟩

/-- C5 is false as stated: no client-side subset check precedes the
submission — `register_capabilities` issues the request even when a
pricing key names an undeclared service. -/
theorem c5_counterexample_no_subset_check :
    (register_capabilities ⟨.str "tok", .null, .null, .null⟩ ["data-analysis"]
      [] [("other-service", 1)] "" ⟨200, some (.obj []), ""⟩).1 =
      some ⟨["data-analysis"], [("other-service", 1)], [], 0, 3, ""⟩ ∧
    "other-service" ∉ ["data-analysis"] := ⟨rfl, by decide⟩

/-- C5 amended: the invariant holds for every advertisement the demos
actually construct — the SERV demo builds pricing by comprehension over
the declared services, and the integrated demo's literal pricing keys
are among its literal services — but `register_capabilities` performs no
validation: with a token present it submits whatever pricing it is
given, unchanged. -/
theorem c5_amended_pricing_by_construction :
    (∀ services : List String, ∀ p ∈ servPricing services, p.1 ∈ services) ∧
    (∀ p ∈ integratedPricing, p.1 ∈ integratedServices) ∧
    (∀ st sv sk pr d r, st.token.truthy = true →
      (register_capabilities st sv sk pr d r).1 = some ⟨sv, pr, sk, 0, 3, d⟩) := by
  refine ⟨?_, ?_, ?_⟩
  · intro services p hp
    simp only [servPricing, List.mem_map] at hp
    obtain ⟨s, hs, rfl⟩ := hp
    exact hs
  · intro p hp
    simp only [integratedPricing, List.mem_cons, List.mem_singleton] at hp
    rcases hp with rfl | rfl | h
    · simp [integratedServices]
    · simp [integratedServices]
    · cases h
  · intro st sv sk pr d r htok
    unfold register_capabilities
    rw [htok]
    rcases hr : respJson r with e | data
    · simp
    · by_cases hs : r.status = 200
      · rcases hg : pyGet data "success" with e | s <;> simp [hs, hg]
      · rcases hg : pyGetD data "error" (.str "Unknown error") with e | s <;>
          simp [hs, hg]

/-- Witness for `c5_amended_pricing_by_construction` at a singleton
service list and a concrete authenticated session. -/
theorem c5_amended_pricing_by_construction_witness :
    (("svc", mkRat 1 10) ∈ servPricing ["svc"] ∧ "svc" ∈ ["svc"]) ∧
    (("data-analysis", mkRat 1 10) ∈ integratedPricing ∧
      "data-analysis" ∈ integratedServices) ∧
    ((⟨.str "tok", .null, .null, .null⟩ : Session).token.truthy = true ∧
      (register_capabilities ⟨.str "tok", .null, .null, .null⟩ ["s"] [] [] ""
        ⟨200, some (.obj []), ""⟩).1 = some ⟨["s"], [], [], 0, 3, ""⟩) :=
  ⟨⟨by simp [servPricing],
    c5_amended_pricing_by_construction.1 ["svc"] ("svc", mkRat 1 10)
      (by simp [servPricing])⟩,
   ⟨by simp [integratedPricing],
    c5_amended_pricing_by_construction.2.1 ("data-analysis", mkRat 1 10)
      (by simp [integratedPricing])⟩,
   ⟨rfl,
    c5_amended_pricing_by_construction.2.2 ⟨.str "tok", .null, .null, .null⟩
      ["s"] [] [] "" ⟨200, some (.obj []), ""⟩ rfl⟩⟩

/-- C6: on a 200 discovery response, a bare-array body yields its
elements as-is, and an enveloped body yields the list stored under
`$values`; in particular an empty result comes back as the empty
sequence wrapped in `.ok`, never as an error. -/
theorem c6_discovery_normalizes_both_shapes (r : HttpResp) (xs : List Json)
    (fs : List (String × Json)) (h200 : r.status = 200) :
    (r.body = some (.arr xs) → discover_agents_by_service r = .ok xs) ∧
    (r.body = some (.obj fs) → lookupField fs "$values" = some (.arr xs) →
      discover_agents_by_service r = .ok xs) := by
  constructor
  · intro hb
    simp [discover_agents_by_service, respJson, hb, h200, unwrapValues]
  · intro hb hv
    simp [discover_agents_by_service, respJson, hb, h200, unwrapValues, hv]

/-- Witness for `c6_discovery_normalizes_both_shapes`: a 200 response
with an empty bare array yields the empty sequence. -/
theorem c6_discovery_normalizes_both_shapes_witness :
    ((⟨200, some (.arr []), ""⟩ : HttpResp).status = 200) ∧
    ((⟨200, some (.arr []), ""⟩ : HttpResp).body = some (.arr [])) ∧
    discover_agents_by_service ⟨200, some (.arr []), ""⟩ = .ok [] :=
  ⟨rfl, rfl, (c6_discovery_normalizes_both_shapes ⟨200, some (.arr []), ""⟩
    [] [] rfl).1 rfl⟩

/-- C7: the payment workflow's discovery step issues exactly one retry:
a non-empty first query ends discovery after one call; an empty first
query is followed by exactly one more, whose non-empty result is used
and whose empty result aborts the run. -/
theorem c7_discovery_single_retry (r1 r2 : HttpResp) (a1 a2 : List Json)
    (h1 : discover_agents_by_service r1 = .ok a1)
    (h2 : discover_agents_by_service r2 = .ok a2) :
    (a1 ≠ [] → discoveryPhase r1 r2 = .ok (1, some a1)) ∧
    (a1 = [] → a2 ≠ [] → discoveryPhase r1 r2 = .ok (2, some a2)) ∧
    (a1 = [] → a2 = [] → discoveryPhase r1 r2 = .ok (2, none)) := by
  refine ⟨?_, ?_, ?_⟩
  · intro hne
    unfold discoveryPhase
    rw [h1]
    cases a1 with
    | nil => exact absurd rfl hne
    | cons a rest => rfl
  · intro he hne
    subst he
    unfold discoveryPhase
    rw [h1, h2]
    cases a2 with
    | nil => exact absurd rfl hne
    | cons a rest => rfl
  · intro he1 he2
    subst he1; subst he2
    unfold discoveryPhase
    rw [h1, h2]

/-- Witness for `c7_discovery_single_retry`: a non-empty first response
ends discovery after one call. -/
theorem c7_discovery_single_retry_witness :
    discover_agents_by_service ⟨200, some (.arr [.str "agentA"]), ""⟩ =
      .ok [.str "agentA"] ∧
    discoveryPhase ⟨200, some (.arr [.str "agentA"]), ""⟩
      ⟨200, some (.arr []), ""⟩ = .ok (1, some [.str "agentA"]) :=
  ⟨rfl, (c7_discovery_single_retry ⟨200, some (.arr [.str "agentA"]), ""⟩
    ⟨200, some (.arr []), ""⟩ [.str "agentA"] [] rfl rfl).1
    (by simp)⟩

/-- C8 is false as stated: an invocation of the payment transfer with a
missing token or source wallet issues zero submissions, not "exactly
one ... regardless of success or failure". -/
theorem c8_counterexample_guard_skips_submission :
    (send_solana_payment Session.init "destWallet" (mkRat 1 100) "memo"
      ⟨200, some (.obj []), ""⟩).1 = [] := rfl

/-- C8 amended: every invocation issues at most one submission; when the
preconditions hold (token and source wallet present) it issues exactly
one, regardless of success or failure, and a non-200 provider reply is
surfaced to the caller as the failure value `None` with still exactly
that single submission — no path ever submits twice.  The same bounds
hold for the Solana demo's variant. -/
theorem c8_amended_at_most_one_submission :
    (∀ st dst a m r, (send_solana_payment st dst a m r).1.length ≤ 1) ∧
    (∀ st dst a m r, st.token.truthy = true → st.wallet_address.truthy = true →
      (send_solana_payment st dst a m r).1.length = 1) ∧
    (∀ st dst a m (fs : List (String × Json)) txt (code : ℕ), code ≠ 200 →
      st.token.truthy = true → st.wallet_address.truthy = true →
      (send_solana_payment st dst a m ⟨code, some (.obj fs), txt⟩).2.2 =
        .ok .null ∧
      (send_solana_payment st dst a m ⟨code, some (.obj fs), txt⟩).1.length = 1) ∧
    (∀ st dst a m fw r, (send_solana_payment_sol st dst a m fw r).1.length ≤ 1) ∧
    (∀ st dst a m fw r s, st.token.truthy = true →
      pyOr fw st.wallet_address = .str s → s ≠ "" →
      (send_solana_payment_sol st dst a m fw r).1.length = 1) := by
  refine ⟨?_, ?_, ?_, ?_, ?_⟩
  · intro st dst a m r
    unfold send_solana_payment
    repeat' first
      | split
      | simp_all
  · intro st dst a m r htok hwal
    unfold send_solana_payment
    rw [htok, hwal]
    repeat' first
      | split
      | simp_all
  · intro st dst a m fs txt code hcode htok hwal
    unfold send_solana_payment
    rw [htok, hwal]
    simp [respJson, pyGetD, hcode]
  · intro st dst a m fw r
    unfold send_solana_payment_sol
    repeat' first
      | split
      | simp_all
  · intro st dst a m fw r s htok hfw hs
    unfold send_solana_payment_sol
    rw [htok, hfw]
    simp only [Json.truthy, hs]
    repeat' first
      | split
      | simp_all

/-- Witness for `c8_amended_at_most_one_submission`: a concrete
authenticated session with a wallet issues exactly one submission on a
concrete failing response. -/
theorem c8_amended_at_most_one_submission_witness :
    ((⟨.str "tok", .null, .null, .str "w1"⟩ : Session).token.truthy = true) ∧
    ((⟨.str "tok", .null, .null, .str "w1"⟩ : Session).wallet_address.truthy
      = true) ∧
    (send_solana_payment ⟨.str "tok", .null, .null, .str "w1"⟩ "dst"
      (mkRat 1 100) "m" ⟨400, some (.obj []), "err"⟩).1.length = 1 :=
  ⟨rfl, rfl, c8_amended_at_most_one_submission.2.1
    ⟨.str "tok", .null, .null, .str "w1"⟩ "dst" (mkRat 1 100) "m"
    ⟨400, some (.obj []), "err"⟩ rfl rfl⟩

/-- C9: session identity fields are mutated only on the success branch
of each operation.  `authenticate` and `create_solana_wallet` leave the
state unchanged unless they return `True`; `register_avatar` leaves it
unchanged unless it returns the (truthy) response body;
the Solana-demo wallet creation mutates only on its 200/no-isError
branch, returning the body; and neither payment send ever mutates the
session. -/
theorem c9_mutation_only_on_success :
    (∀ st u r, (authenticate st u r).1 = st ∨ (authenticate st u r).2 = .ok true) ∧
    (∀ st u rc out p, (register_avatar st u rc out p).1 = st ∨
      ∃ data, (register_avatar st u rc out p).2 = .ok data ∧
        data.truthy = true) ∧
    (∀ st r, (create_solana_wallet st r).1 = st ∨
      (create_solana_wallet st r).2 = .ok true) ∧
    (∀ st r, (create_solana_wallet_sol st r).1 = st ∨
      (r.status = 200 ∧ ∃ data ie, respJson r = .ok data ∧
        pyGet data "isError" = .ok ie ∧ ie.truthy = false ∧
        (create_solana_wallet_sol st r).2 = .ok data)) ∧
    (∀ st dst a m r, (send_solana_payment st dst a m r).2.1 = st) ∧
    (∀ st dst a m fw r, (send_solana_payment_sol st dst a m fw r).2.1 = st) := by
  refine ⟨?_, ?_, ?_, ?_, ?_, ?_⟩
  · intro st u r
    unfold authenticate
    repeat' first
      | exact Or.inl rfl
      | exact Or.inr rfl
      | split
      | dsimp only
  · intro st u rc out p
    unfold register_avatar
    by_cases h0 : rc = 0 ∧ out ≠ ""
    · rw [if_pos h0]
      cases p with
      | none => exact Or.inl rfl
      | some data =>
        rcases hres : pyGetD data "result" (.obj []) with e | result
        · simp [hres]
        · simp only [hres]
          by_cases hsc : jsonEqNat (objGetD data "statusCode" .null) 200 = true
          · rw [if_pos hsc]
            rcases hie : pyGet result "isError" with e | ie
            · simp [hie]
            · simp only [hie]
              by_cases ht : ie.truthy = true
              · rw [if_pos ht]; exact Or.inl rfl
              · rw [if_neg ht]
                rcases hrr : pyGetD result "result" (.obj []) with e | rr
                · simp [hrr]
                · simp only [hrr]
                  rcases hid : pyGet rr "id" with e | idv
                  · simp [hid]
                  · simp only [hid]
                    right
                    refine ⟨data, rfl, ?_⟩
                    cases data with
                    | obj fs =>
                      cases fs with
                      | nil => simp [objGetD, lookupField, jsonEqNat] at hsc
                      | cons hd tl => simp [Json.truthy]
                    | null => simp [objGetD, jsonEqNat] at hsc
                    | bool b => simp [objGetD, jsonEqNat] at hsc
                    | num q => simp [objGetD, jsonEqNat] at hsc
                    | str s => simp [objGetD, jsonEqNat] at hsc
                    | arr xs => simp [objGetD, jsonEqNat] at hsc
          · rw [if_neg hsc]; exact Or.inl rfl
    · rw [if_neg h0]; exact Or.inl rfl
  · intro st r
    unfold create_solana_wallet
    repeat' first
      | exact Or.inl rfl
      | exact Or.inr rfl
      | split
      | dsimp only
  · intro st r
    unfold create_solana_wallet_sol
    by_cases hg : (st.token.truthy && st.avatar_id.truthy) = true
    · rw [if_pos hg]
      rcases hr : respJson r with e | data
      · simp [hr]
      · simp only [hr]
        by_cases hs : r.status = 200
        · rw [if_pos hs]
          rcases hie : pyGet data "isError" with e | ie
          · simp [hie]
          · simp only [hie]
            by_cases ht : ie.truthy = true
            · rw [if_pos ht]; exact Or.inl rfl
            · rw [if_neg ht]
              rcases hwa : pyGet (objGetD data "result" (.obj []))
                  "walletAddress" with e | wa
              · simp [hwa]
              · simp only [hwa]
                right
                exact ⟨hs, data, ie, rfl, hie, by simpa using ht, rfl⟩
        · rw [if_neg hs]
          rcases hm : pyGetD data "message" (.str "Unknown error") with e | mm
          · simp [hm]
          · simp [hm]
    · rw [if_neg hg]; exact Or.inl rfl
  · intro st dst a m r
    unfold send_solana_payment
    repeat' first
      | rfl
      | split
      | dsimp only
  · intro st dst a m fw r
    unfold send_solana_payment_sol
    repeat' first
      | rfl
      | split
      | dsimp only

/-- C10: a discovery query cannot distinguish failure from absence — a
non-200 status, a 200 body that is not list-shaped after the
`$values` unwrap, and a genuine zero-match all yield the same `.ok []`;
`get_pending_messages` likewise collapses a non-200 status to `[]` for
an authenticated session. -/
theorem c10_failure_indistinguishable_from_empty (r : HttpResp) :
    (r.status ≠ 200 → discover_agents_by_service r = .ok []) ∧
    (∀ data, r.status = 200 → r.body = some data →
      (∀ xs, unwrapValues data ≠ .arr xs) →
      discover_agents_by_service r = .ok []) ∧
    (r.status = 200 → r.body = some (.arr []) →
      discover_agents_by_service r = .ok []) ∧
    (∀ st : Session, st.token.truthy = true → r.status ≠ 200 →
      get_pending_messages st r = .ok []) := by
  refine ⟨?_, ?_, ?_, ?_⟩
  · intro h
    unfold discover_agents_by_service
    rw [if_neg h]
  · intro data hs hb hnl
    unfold discover_agents_by_service
    rw [if_pos hs]
    simp only [respJson, hb]
  · intro hs hb
    unfold discover_agents_by_service
    rw [if_pos hs]
    simp [respJson, hb, unwrapValues]
  · intro st htok h
    unfold get_pending_messages
    rw [htok]
    simp [if_neg h]

/-- Witness for `c10_failure_indistinguishable_from_empty`: a 503
response (body not even JSON) yields the same `.ok []` as a zero-match,
and a 200 non-list body does too. -/
theorem c10_failure_indistinguishable_from_empty_witness :
    ((503 : ℕ) ≠ 200 ∧
      discover_agents_by_service ⟨503, none, "Service Unavailable"⟩ = .ok []) ∧
    ((200 : ℕ) = 200 ∧
      discover_agents_by_service ⟨200, some (.str "oops"), ""⟩ = .ok []) :=
  ⟨⟨by decide, (c10_failure_indistinguishable_from_empty
      ⟨503, none, "Service Unavailable"⟩).1 (by decide)⟩,
   ⟨rfl, (c10_failure_indistinguishable_from_empty
      ⟨200, some (.str "oops"), ""⟩).2.1 (.str "oops") rfl rfl
      (fun xs h => Json.noConfusion h)⟩⟩
